import Mathlib

/-!
Shallow embedding of `src/usv_script.py`, a retrying web-reservation script:
an orchestrator (`login_and_schedule`) repeatedly acquires a browser session,
logs in, navigates to the appointment page, sweeps every facility location
(`check_and_reschedule`), scanning each one for an available date/time slot
(`select_date_and_time`), and books the first slot found.

Browser-driver effects (element queries, clicks, waits) are modelled by page-
and location-state records carrying the data the script reads plus flags for
the interaction steps that can raise, and every function additionally returns
the trace of driver interactions it performed, so ordering and resource
properties can be stated about the traces.
-/

namespace Usv

/-- `RETRY_INTERVAL = 60` seconds: fixed inter-cycle delay. -/
def RETRY_INTERVAL : Nat := 60

/-- `SLEEP_AFTER_SELECT = 10` seconds: fixed inter-location delay. -/
def SLEEP_AFTER_SELECT : Nat := 10

/-! ## AvailabilityScanner: `select_date_and_time` -/

/-- Driver interactions performed by `select_date_and_time`, in order. -/
inductive ScanAction where
  /-- `page.query_selector("#consulate_date_time_not_available")`
      plus the visibility check. -/
  | queryBusy : ScanAction
  /-- `page.click("#appointments_consulate_appointment_date")`. -/
  | clickDate : ScanAction
  /-- reading the date control's `value` attribute. -/
  | readDate : ScanAction
  /-- `query_selector_all` on the time dropdown's options. -/
  | readTimeOptions : ScanAction
  /-- `time_dropdown.select_option(value=v)`. -/
  | selectTime (v : String) : ScanAction
  deriving DecidableEq, Repr

/-- The page state `select_date_and_time` observes for one location's form.
    `timeOptions` lists every `option` of the time dropdown in document
    order; an entry is `none` when the option has no `value` attribute,
    `some v` when its `value` attribute is `v` (possibly empty).
    The `...Raises` flags say whether the corresponding driver step raises. -/
structure ScanPage where
  busyPresent : Bool
  busyVisible : Bool
  clickDateRaises : Bool
  readDateRaises : Bool
  dateValue : Option String
  readTimeRaises : Bool
  timeOptions : List (Option String)
  selectTimeRaises : Bool
  deriving DecidableEq, Repr

/-- The time options the CSS query `option[value]:not([value=''])` returns:
    options that have a `value` attribute and whose value is non-empty,
    in document order. -/
def availableTimes (opts : List (Option String)) : List String :=
  (opts.filterMap id).filter (fun v => v ≠ "")

/-- The `try` body of `select_date_and_time`: steps 1-5 of the scan.
    Returns the outcome (`Except.error` when a driver step raises, otherwise
    the boolean the Python `return` produces) together with the trace of
    driver interactions performed up to that point. -/
def scanBody (p : ScanPage) : Except String Bool × List ScanAction :=
  let tr := [ScanAction.queryBusy]
  if p.busyPresent && p.busyVisible then
    (Except.ok false, tr)
  else
    let tr := tr ++ [ScanAction.clickDate]
    if p.clickDateRaises then
      (Except.error "click on date control failed", tr)
    else
      let tr := tr ++ [ScanAction.readDate]
      if p.readDateRaises then
        (Except.error "reading date value failed", tr)
      else
        match p.dateValue with
        | none => (Except.ok false, tr)
        | some d =>
          if d = "" then
            (Except.ok false, tr)
          else
            let tr := tr ++ [ScanAction.readTimeOptions]
            if p.readTimeRaises then
              (Except.error "reading time options failed", tr)
            else
              match availableTimes p.timeOptions with
              | [] => (Except.ok false, tr)
              | v :: _ =>
                let tr := tr ++ [ScanAction.selectTime v]
                if p.selectTimeRaises then
                  (Except.error "select_option failed", tr)
                else
                  (Except.ok true, tr)

/-- `select_date_and_time`: the `try` body with its `except` clause, which
    logs and converts any raised error into the `False` result. -/
def select_date_and_time (p : ScanPage) : Bool × List ScanAction :=
  match scanBody p with
  | (Except.ok b, tr) => (b, tr)
  | (Except.error _, tr) => (false, tr)

/-- A scan page with no busy indicator, no raising steps, a non-empty
    resolved date, and the given time options (used by concrete examples). -/
def plainScanPage (date : String) (opts : List (Option String)) : ScanPage :=
  { busyPresent := false, busyVisible := false, clickDateRaises := false
    readDateRaises := false, dateValue := some date, readTimeRaises := false
    timeOptions := opts, selectTimeRaises := false }

example :
    select_date_and_time (plainScanPage "2024-05-01" [some "", some "09:00", some "10:30"])
      = (true, [ScanAction.queryBusy, ScanAction.clickDate, ScanAction.readDate,
                ScanAction.readTimeOptions, ScanAction.selectTime "09:00"]) := by
  decide

/-! ### Claims about the scanner -/

/-- C5: the scanner selects the first non-empty-valued time option in
    document order — the head of the `option[value]:not([value=''])` query
    result — with no comparison between option values: whenever the scan
    reaches the time step (no busy indicator, no raise, non-empty date) and
    the first surviving option is `v`, the action performed is
    `selectTime v` and the scan reports a slot. -/
theorem select_first_nonempty_time (p : ScanPage) (v : String) (vs : List String)
    (hbusy : ¬(p.busyPresent = true ∧ p.busyVisible = true))
    (hclick : p.clickDateRaises = false)
    (hread : p.readDateRaises = false)
    (hdate : ∃ d, p.dateValue = some d ∧ d ≠ "")
    (htime : p.readTimeRaises = false)
    (hsel : p.selectTimeRaises = false)
    (hopts : availableTimes p.timeOptions = v :: vs) :
    select_date_and_time p =
      (true, [ScanAction.queryBusy, ScanAction.clickDate, ScanAction.readDate,
              ScanAction.readTimeOptions, ScanAction.selectTime v]) := by
  obtain ⟨d, hd, hdne⟩ := hdate
  have hb : (p.busyPresent && p.busyVisible) = false := by
    cases h1 : p.busyPresent <;> cases h2 : p.busyVisible <;> simp_all
  simp [select_date_and_time, scanBody, hb, hclick, hread, hd, hdne, htime, hopts, hsel]

/-- Witness for C5 on the spec's example options `["", "09:00", "10:30"]`. -/
theorem select_first_nonempty_time_witness :
    select_date_and_time (plainScanPage "2024-05-01" [some "", some "09:00", some "10:30"])
      = (true, [ScanAction.queryBusy, ScanAction.clickDate, ScanAction.readDate,
                ScanAction.readTimeOptions, ScanAction.selectTime "09:00"]) :=
  select_first_nonempty_time _ "09:00" ["10:30"]
    (by decide) (by decide) (by decide) ⟨"2024-05-01", by decide⟩
    (by decide) (by decide) (by decide)

/-- C6: when the "no availability" indicator is present and visible, the
    scanner returns `False` after only the indicator query: it never touches
    the date control or the time control. -/
theorem busy_short_circuit (p : ScanPage)
    (hp : p.busyPresent = true) (hv : p.busyVisible = true) :
    select_date_and_time p = (false, [ScanAction.queryBusy]) := by
  simp [select_date_and_time, scanBody, hp, hv]

/-- Witness for C6 at a concrete page. -/
theorem busy_short_circuit_witness :
    select_date_and_time
      { busyPresent := true, busyVisible := true, clickDateRaises := false
        readDateRaises := false, dateValue := some "2024-05-01"
        readTimeRaises := false, timeOptions := [some "09:00"]
        selectTimeRaises := false }
      = (false, [ScanAction.queryBusy]) :=
  busy_short_circuit _ rfl rfl

/-- C8: `select_date_and_time` is total — it returns a boolean for every
    page state — and whenever a driver step inside its body raises, the
    error is caught and converted to the `False` (NoSlot) result. -/
theorem scan_error_gives_noslot (p : ScanPage) (e : String)
    (h : (scanBody p).1 = Except.error e) :
    (select_date_and_time p).1 = false := by
  unfold select_date_and_time
  rcases hb : scanBody p with ⟨r, tr⟩
  cases r with
  | ok b => rw [hb] at h; simp at h
  | error s => simp

/-- Witness for C8: a page whose date-control click raises. -/
theorem scan_error_gives_noslot_witness :
    (select_date_and_time
      { busyPresent := false, busyVisible := false, clickDateRaises := true
        readDateRaises := false, dateValue := some "2024-05-01"
        readTimeRaises := false, timeOptions := [some "09:00"]
        selectTimeRaises := false }).1 = false :=
  scan_error_gives_noslot _ "click on date control failed" rfl

/-! ## LocationSweeper: `check_and_reschedule` -/

/-- One `option` of the facility selector together with the page behaviour
    observed once that location is selected. `selectRaises` says whether
    `page.select_option` on the facility control raises; `waitSubmitRaises`
    whether `wait_for_selector("#appointments_submit")` times out;
    `submitPresent`/`submitDisabled` describe the queried submit button;
    `clickSubmitRaises` whether clicking it raises; `scanPage` is the form
    state `select_date_and_time` then sees. -/
structure Location where
  name : String
  value : String
  selectRaises : Bool
  waitSubmitRaises : Bool
  submitPresent : Bool
  submitDisabled : Bool
  scanPage : ScanPage
  clickSubmitRaises : Bool
  deriving DecidableEq, Repr

/-- Driver interactions performed by `check_and_reschedule`, in order. -/
inductive SweepEvent where
  /-- `page.select_option(facility, value=v)`. -/
  | selectLocation (v : String) : SweepEvent
  /-- `page.wait_for_selector("#appointments_submit")` for location `v`. -/
  | waitSubmit (v : String) : SweepEvent
  /-- the call to `select_date_and_time` for location `v`, recording the
      boolean it returned. -/
  | scan (v : String) (found : Bool) : SweepEvent
  /-- `page.on("dialog", handle_confirm)`. -/
  | registerDialogHandler : SweepEvent
  /-- `reschedule_button.click()` at location `v`. -/
  | clickSubmit (v : String) : SweepEvent
  /-- `time.sleep(SLEEP_AFTER_SELECT)` between locations. -/
  | sleepBetween : SweepEvent
  deriving DecidableEq, Repr

/-- The `try` body of `check_and_reschedule`: the `for` loop over the
    facility options. An `Except.error` outcome is an exception escaping
    the loop (to be caught by the function's own `except` clause). -/
def sweepBody : List Location → Except String Bool × List SweepEvent
  | [] => (Except.ok false, [])
  | loc :: rest =>
    let tr := [SweepEvent.selectLocation loc.value]
    if loc.selectRaises then
      (Except.error "select_option on facility failed", tr)
    else
      let tr := tr ++ [SweepEvent.waitSubmit loc.value]
      if loc.waitSubmitRaises then
        (Except.error "timeout waiting for submit button", tr)
      else if loc.submitPresent && !loc.submitDisabled then
        let (found, _) := select_date_and_time loc.scanPage
        let tr := tr ++ [SweepEvent.scan loc.value found]
        if found then
          let tr := tr ++ [SweepEvent.registerDialogHandler,
                           SweepEvent.clickSubmit loc.value]
          if loc.clickSubmitRaises then
            (Except.error "click on submit failed", tr)
          else
            (Except.ok true, tr)
        else
          let tr := tr ++ [SweepEvent.sleepBetween]
          let (res, tr2) := sweepBody rest
          (res, tr ++ tr2)
      else
        let tr := tr ++ [SweepEvent.sleepBetween]
        let (res, tr2) := sweepBody rest
        (res, tr ++ tr2)

/-- `check_and_reschedule`: the loop body with its surrounding `except`
    clause, which logs and converts any escaped exception into the
    `False` (no booking this cycle) result. -/
def check_and_reschedule (locs : List Location) : Bool × List SweepEvent :=
  match sweepBody locs with
  | (Except.ok b, tr) => (b, tr)
  | (Except.error _, tr) => (false, tr)

/-- A location with no raising steps, an enabled submit button, and the
    given scan page (used by concrete examples). -/
def plainLocation (name value : String) (p : ScanPage) : Location :=
  { name := name, value := value, selectRaises := false
    waitSubmitRaises := false, submitPresent := true
    submitDisabled := false, scanPage := p, clickSubmitRaises := false }

/-- A scan page on which the scan finds no slot (no time options at all). -/
def emptyScanPage : ScanPage := plainScanPage "2024-05-01" []

/-- The facility value a sweep event refers to, if any. -/
def SweepEvent.locValue : SweepEvent → Option String
  | SweepEvent.selectLocation v => some v
  | SweepEvent.waitSubmit v => some v
  | SweepEvent.scan v _ => some v
  | SweepEvent.clickSubmit v => some v
  | SweepEvent.registerDialogHandler => none
  | SweepEvent.sleepBetween => none

/-! ### Claims about the sweep -/

/-- C4: for locations `[A, B, C]` where A's form scans to no slot and B's
    scans to a slot (both with working controls and an enabled submit
    button), the sweep visits A first with result NoSlot, then books at B —
    registering the dialog handler and clicking submit — returns `True`
    immediately, and produces no event referring to C's facility value. -/
theorem sweep_order_and_early_exit (A B C : Location)
    (hAsel : A.selectRaises = false) (hAwait : A.waitSubmitRaises = false)
    (hApres : A.submitPresent = true) (hAdis : A.submitDisabled = false)
    (hAscan : (select_date_and_time A.scanPage).1 = false)
    (hBsel : B.selectRaises = false) (hBwait : B.waitSubmitRaises = false)
    (hBpres : B.submitPresent = true) (hBdis : B.submitDisabled = false)
    (hBscan : (select_date_and_time B.scanPage).1 = true)
    (hBclick : B.clickSubmitRaises = false)
    (hCA : C.value ≠ A.value) (hCB : C.value ≠ B.value) :
    check_and_reschedule [A, B, C] =
      (true, [SweepEvent.selectLocation A.value, SweepEvent.waitSubmit A.value,
              SweepEvent.scan A.value false, SweepEvent.sleepBetween,
              SweepEvent.selectLocation B.value, SweepEvent.waitSubmit B.value,
              SweepEvent.scan B.value true, SweepEvent.registerDialogHandler,
              SweepEvent.clickSubmit B.value]) ∧
    ∀ e ∈ (check_and_reschedule [A, B, C]).2, e.locValue ≠ some C.value := by
  have hA : select_date_and_time A.scanPage =
      ((select_date_and_time A.scanPage).1, (select_date_and_time A.scanPage).2) := rfl
  have htr : check_and_reschedule [A, B, C] =
      (true, [SweepEvent.selectLocation A.value, SweepEvent.waitSubmit A.value,
              SweepEvent.scan A.value false, SweepEvent.sleepBetween,
              SweepEvent.selectLocation B.value, SweepEvent.waitSubmit B.value,
              SweepEvent.scan B.value true, SweepEvent.registerDialogHandler,
              SweepEvent.clickSubmit B.value]) := by
    simp only [check_and_reschedule, sweepBody, hAsel, hAwait, hApres, hAdis,
      hBsel, hBwait, hBpres, hBdis, hBclick, Bool.false_eq_true, if_false,
      Bool.not_false, Bool.and_true, if_true]
    rw [show (select_date_and_time A.scanPage) =
        (false, (select_date_and_time A.scanPage).2) by rw [← hAscan]]
    rw [show (select_date_and_time B.scanPage) =
        (true, (select_date_and_time B.scanPage).2) by rw [← hBscan]]
    simp
  refine ⟨htr, ?_⟩
  rw [htr]
  intro e he
  simp only [List.mem_cons, List.not_mem_nil, or_false] at he
  rcases he with h | h | h | h | h | h | h | h | h <;> subst h <;>
    simp [SweepEvent.locValue, hCA.symm, hCB.symm]

/-- Witness for C4 at concrete locations: A has no time options, B has one. -/
theorem sweep_order_and_early_exit_witness :
    check_and_reschedule
        [plainLocation "A" "101" emptyScanPage,
         plainLocation "B" "102" (plainScanPage "2024-05-01" [some "14:00"]),
         plainLocation "C" "103" (plainScanPage "2024-05-01" [some "15:00"])] =
      (true, [SweepEvent.selectLocation "101", SweepEvent.waitSubmit "101",
              SweepEvent.scan "101" false, SweepEvent.sleepBetween,
              SweepEvent.selectLocation "102", SweepEvent.waitSubmit "102",
              SweepEvent.scan "102" true, SweepEvent.registerDialogHandler,
              SweepEvent.clickSubmit "102"]) ∧
    ∀ e ∈ (check_and_reschedule
        [plainLocation "A" "101" emptyScanPage,
         plainLocation "B" "102" (plainScanPage "2024-05-01" [some "14:00"]),
         plainLocation "C" "103" (plainScanPage "2024-05-01" [some "15:00"])]).2,
      e.locValue ≠ some "103" :=
  sweep_order_and_early_exit _ _ _
    rfl rfl rfl rfl (by decide) rfl rfl rfl rfl (by decide) rfl
    (by decide) (by decide)

/-- A sweep step of `loc` (facility select, submit wait, or submit click)
    raises an exception when processed by `check_and_reschedule`. -/
def raisesInSweepStep (loc : Location) : Bool :=
  loc.selectRaises || loc.waitSubmitRaises ||
    (loc.submitPresent && !loc.submitDisabled &&
      (select_date_and_time loc.scanPage).1 && loc.clickSubmitRaises)

/-- C3 counterexample: location `A`'s facility select raises while location
    `B` has a bookable slot. The claim says the exception is treated as
    NoSlot for `A` only and the sweep continues to `B`; on its own `B`
    books, yet the sweep over `[A, B]` stops at `A`'s exception, returns
    `False`, and never visits `B`. -/
theorem sweep_exception_counterexample :
    check_and_reschedule
        [plainLocation "B" "102" (plainScanPage "2024-05-01" [some "14:00"])] =
      (true, [SweepEvent.selectLocation "102", SweepEvent.waitSubmit "102",
              SweepEvent.scan "102" true, SweepEvent.registerDialogHandler,
              SweepEvent.clickSubmit "102"]) ∧
    check_and_reschedule
        [{ plainLocation "A" "101" emptyScanPage with selectRaises := true },
         plainLocation "B" "102" (plainScanPage "2024-05-01" [some "14:00"])] =
      (false, [SweepEvent.selectLocation "101"]) := by
  constructor <;> decide

/-- Unfolding lemma: a location with working controls and an enabled submit
    button whose scan reports no slot contributes its four events and the
    sweep continues on the remaining locations. -/
theorem sweepBody_cons_noslot (loc : Location) (rest : List Location)
    (hsel : loc.selectRaises = false) (hwait : loc.waitSubmitRaises = false)
    (hp : loc.submitPresent = true) (hd : loc.submitDisabled = false)
    (hscan : (select_date_and_time loc.scanPage).1 = false) :
    sweepBody (loc :: rest) =
      ((sweepBody rest).1,
        [SweepEvent.selectLocation loc.value, SweepEvent.waitSubmit loc.value,
         SweepEvent.scan loc.value false, SweepEvent.sleepBetween] ++
          (sweepBody rest).2) := by
  rcases hsc : select_date_and_time loc.scanPage with ⟨found, str⟩
  rw [hsc] at hscan
  simp only at hscan
  subst hscan
  rcases hr : sweepBody rest with ⟨r, tr2⟩
  simp [sweepBody, hsel, hwait, hp, hd, hsc, hr]

/-- C3 amended: an exception raised during a per-location sweep step is
    caught and logged but aborts the remainder of the sweep — the sweep
    returns `False` for the whole cycle and no later Location is visited
    (every event refers to the raising Location or to no Location). Only an
    exception inside `select_date_and_time`'s own steps is converted to
    NoSlot for that Location with the sweep continuing to the rest. -/
theorem sweep_step_exception_aborts (loc loc2 : Location)
    (rest rest2 : List Location) (e : String)
    (h1 : raisesInSweepStep loc = true)
    (h2sel : loc2.selectRaises = false) (h2wait : loc2.waitSubmitRaises = false)
    (h2pres : loc2.submitPresent = true) (h2dis : loc2.submitDisabled = false)
    (h2scan : (scanBody loc2.scanPage).1 = Except.error e) :
    ((check_and_reschedule (loc :: rest)).1 = false ∧
      ∀ ev ∈ (check_and_reschedule (loc :: rest)).2,
        ev.locValue = some loc.value ∨ ev.locValue = none) ∧
    check_and_reschedule (loc2 :: rest2) =
      ((check_and_reschedule rest2).1,
        [SweepEvent.selectLocation loc2.value, SweepEvent.waitSubmit loc2.value,
         SweepEvent.scan loc2.value false, SweepEvent.sleepBetween] ++
          (check_and_reschedule rest2).2) := by
  constructor
  · unfold raisesInSweepStep at h1
    cases hsel : loc.selectRaises with
    | true =>
      simp [check_and_reschedule, sweepBody, hsel, SweepEvent.locValue]
    | false =>
      rw [hsel] at h1
      cases hwait : loc.waitSubmitRaises with
      | true =>
        simp [check_and_reschedule, sweepBody, hsel, hwait, SweepEvent.locValue]
      | false =>
        rw [hwait] at h1
        simp only [Bool.false_or] at h1
        have hpres : loc.submitPresent = true := by
          cases h : loc.submitPresent <;> simp [h] at h1 ⊢
        have hdis : loc.submitDisabled = false := by
          cases h : loc.submitDisabled <;> simp [h] at h1 ⊢
        have hfound : (select_date_and_time loc.scanPage).1 = true := by
          cases h : (select_date_and_time loc.scanPage).1 <;> simp [h] at h1 ⊢
        have hclick : loc.clickSubmitRaises = true := by
          cases h : loc.clickSubmitRaises <;> simp [h] at h1 ⊢
        rcases hsc : select_date_and_time loc.scanPage with ⟨found, str⟩
        rw [hsc] at hfound
        simp only at hfound
        subst hfound
        simp [check_and_reschedule, sweepBody, hsel, hwait, hpres, hdis, hclick,
          hsc, SweepEvent.locValue]
  · have hfound : (select_date_and_time loc2.scanPage).1 = false :=
      scan_error_gives_noslot loc2.scanPage e h2scan
    have hsb := sweepBody_cons_noslot loc2 rest2 h2sel h2wait h2pres h2dis hfound
    unfold check_and_reschedule
    rw [hsb]
    rcases hr : sweepBody rest2 with ⟨r, tr2⟩
    cases r <;> simp

/-- Witness for the amended C3: a raising facility select for the first
    part, a raising date click (scanner-internal) for the second. -/
theorem sweep_step_exception_aborts_witness :
    ((check_and_reschedule
        [{ plainLocation "A" "101" emptyScanPage with selectRaises := true },
         plainLocation "B" "102" (plainScanPage "2024-05-01" [some "14:00"])]).1
        = false ∧
      ∀ ev ∈ (check_and_reschedule
        [{ plainLocation "A" "101" emptyScanPage with selectRaises := true },
         plainLocation "B" "102" (plainScanPage "2024-05-01" [some "14:00"])]).2,
        ev.locValue = some "101" ∨ ev.locValue = none) ∧
    check_and_reschedule
        [plainLocation "D" "104"
          ({ emptyScanPage with clickDateRaises := true }),
         plainLocation "B" "102" (plainScanPage "2024-05-01" [some "14:00"])] =
      ((check_and_reschedule
          [plainLocation "B" "102" (plainScanPage "2024-05-01" [some "14:00"])]).1,
        [SweepEvent.selectLocation "104", SweepEvent.waitSubmit "104",
         SweepEvent.scan "104" false, SweepEvent.sleepBetween] ++
          (check_and_reschedule
            [plainLocation "B" "102" (plainScanPage "2024-05-01" [some "14:00"])]).2) :=
  sweep_step_exception_aborts _ _ _ _ "click on date control failed"
    (by decide) rfl rfl rfl rfl rfl

/-! ## Navigator: `navigate_to_appointment`

The regex `/schedule/(\d+)/continue_actions` applied by `re.search`:
the literal `/schedule/`, one or more digits (greedy — exact here, since
the character after the digit run must be `/`, which is not a digit), the
literal `/continue_actions`; `re.search` tries the pattern at each start
position left to right. -/

/-- Match the schedule pattern at the head of `cs`, returning the captured
    digit group. -/
def matchScheduleAt (cs : List Char) : Option String :=
  if "/schedule/".data.isPrefixOf cs then
    let rest := cs.drop 10
    let ds := rest.takeWhile Char.isDigit
    if ds.isEmpty then none
    else if "/continue_actions".data.isPrefixOf (rest.drop ds.length) then
      some (String.mk ds)
    else none
  else none

/-- `re.search(r"/schedule/(\d+)/continue_actions", s)`: leftmost match. -/
def searchSchedule : List Char → Option String
  | [] => none
  | c :: cs =>
    match matchScheduleAt (c :: cs) with
    | some s => some s
    | none => searchSchedule cs

/-- The f-string template the appointment number is substituted into. -/
def appointmentUrl (num : String) : String :=
  "https://ais.usvisa-info.com/en-ca/niv/schedule/" ++ num ++ "/appointment"

/-- What the Navigator observes: the `href` of the continue link, or `none`
    when the link is absent (the driver's attribute lookup then raises). -/
structure NavPage where
  continueHref : Option String
  deriving DecidableEq, Repr

/-- `navigate_to_appointment`: extract the appointment number from the
    continue link's href and build the appointment page address. Its own
    `except` clause logs and re-raises, so the raised error reaches the
    caller: an absent link or a regex match failure (`.group(1)` on `None`)
    is an `Except.error`. -/
def navigate_to_appointment (np : NavPage) : Except String String :=
  match np.continueHref with
  | none => Except.error "continue link absent"
  | some href =>
    match searchSchedule href.data with
    | none => Except.error "regex match failure on continue link href"
    | some num => Except.ok (appointmentUrl num)

example :
    navigate_to_appointment
      ⟨some "https://ais.usvisa-info.com/en-ca/niv/schedule/12345/continue_actions"⟩
      = Except.ok (appointmentUrl "12345") := rfl

/-! ## SchedulingOrchestrator: `login_and_schedule`

One cycle of the `while True` loop: launch a fresh browser/context/page,
`login`, `navigate_to_appointment`, `check_and_reschedule`; `break` when
the sweep booked; `except` clauses log Timeout or any other exception; the
`finally` block closes the context and the browser and sleeps
`RETRY_INTERVAL` on every exit path. `login`'s internals are driver
effects whose outcome is carried by the environment (`loginResult`); its
own `except` clauses log and re-raise, so the orchestrator sees exactly
that outcome. Cycles are numbered from 0; each orchestrator event carries
the number of the cycle (and so of the session) it belongs to. -/

/-- The external world of one cycle: whether `login` returns or raises,
    the continue-link state the Navigator sees, and the facility options
    the sweep sees. -/
structure CycleEnv where
  loginResult : Except String Unit
  navPage : NavPage
  locations : List Location

/-- Orchestrator-level events of `login_and_schedule`, each tagged with
    its cycle number. -/
inductive OrchEvent where
  /-- `launch_browser_in_incognito`: new browser, context, page. -/
  | acquire (sid : Nat) : OrchEvent
  /-- the call to `login`. -/
  | loginCall (sid : Nat) : OrchEvent
  /-- the call to `navigate_to_appointment`. -/
  | navigateCall (sid : Nat) : OrchEvent
  /-- the call to `check_and_reschedule`. -/
  | sweepCall (sid : Nat) : OrchEvent
  /-- `context.close()` in the `finally` block. -/
  | closeContext (sid : Nat) : OrchEvent
  /-- `browser.close()` in the `finally` block. -/
  | closeBrowser (sid : Nat) : OrchEvent
  /-- `time.sleep(secs)` in the `finally` block. -/
  | sleepRetry (secs : Nat) : OrchEvent
  deriving DecidableEq, Repr

/-- The cycle an event belongs to (`none` for the untagged sleep). -/
def OrchEvent.sid : OrchEvent → Option Nat
  | OrchEvent.acquire s => some s
  | OrchEvent.loginCall s => some s
  | OrchEvent.navigateCall s => some s
  | OrchEvent.sweepCall s => some s
  | OrchEvent.closeContext s => some s
  | OrchEvent.closeBrowser s => some s
  | OrchEvent.sleepRetry _ => none

/-- Whether one cycle books: login returns, navigation succeeds, and the
    sweep reports a booking. -/
def cycleBooks (env : CycleEnv) : Bool :=
  match env.loginResult with
  | Except.error _ => false
  | Except.ok _ =>
    match navigate_to_appointment env.navPage with
    | Except.error _ => false
    | Except.ok _ => (check_and_reschedule env.locations).1

/-- The `try` body of one loop iteration: launch, login, navigate, sweep,
    stopping at the first raise (which the `except` clauses then absorb). -/
def runCycleBody (sid : Nat) (env : CycleEnv) : Bool × List OrchEvent :=
  match env.loginResult with
  | Except.error _ => (false, [OrchEvent.acquire sid, OrchEvent.loginCall sid])
  | Except.ok _ =>
    match navigate_to_appointment env.navPage with
    | Except.error _ =>
      (false, [OrchEvent.acquire sid, OrchEvent.loginCall sid,
               OrchEvent.navigateCall sid])
    | Except.ok _ =>
      ((check_and_reschedule env.locations).1,
        [OrchEvent.acquire sid, OrchEvent.loginCall sid,
         OrchEvent.navigateCall sid, OrchEvent.sweepCall sid])

/-- One full loop iteration: the `try` body followed by the `finally`
    block (close the context, close the browser, sleep `RETRY_INTERVAL`),
    which runs on every exit path — success, raise, or no-slot sweep. -/
def runCycle (sid : Nat) (env : CycleEnv) : Bool × List OrchEvent :=
  ((runCycleBody sid env).1,
    (runCycleBody sid env).2 ++
      [OrchEvent.closeContext sid, OrchEvent.closeBrowser sid,
       OrchEvent.sleepRetry RETRY_INTERVAL])

/-- The `while True` loop over the environments of successive cycles,
    numbering cycles from `sid`. Returns the number of the booking cycle
    (`none` if the supplied prefix of environments is exhausted without a
    booking — the real loop would keep going) and the event trace. -/
def runCycles : Nat → List CycleEnv → Option Nat × List OrchEvent
  | _, [] => (none, [])
  | sid, env :: rest =>
    let (booked, tr) := runCycle sid env
    if booked then (some sid, tr)
    else
      let (res, tr2) := runCycles (sid + 1) rest
      (res, tr ++ tr2)

/-- `login_and_schedule` on the environments of successive cycles. -/
def login_and_schedule (envs : List CycleEnv) : Option Nat × List OrchEvent :=
  runCycles 0 envs

/-- A cycle environment that books: login returns, the continue link
    resolves, one location with one slot. -/
def bookEnv : CycleEnv :=
  { loginResult := Except.ok ()
    navPage :=
      ⟨some "https://ais.usvisa-info.com/en-ca/niv/schedule/12345/continue_actions"⟩
    locations := [plainLocation "B" "102" (plainScanPage "2024-05-01" [some "14:00"])] }

/-- A cycle environment whose login raises `TimeoutError`. -/
def loginTimeoutEnv : CycleEnv :=
  { loginResult := Except.error "Timeout: login page did not load in time"
    navPage := ⟨none⟩
    locations := [] }

/-- A cycle environment whose continue-link href does not match the
    schedule path pattern. -/
def navFailEnv : CycleEnv :=
  { loginResult := Except.ok ()
    navPage := ⟨some "https://ais.usvisa-info.com/en-ca/niv/groups/40000000"⟩
    locations := [] }

example : login_and_schedule [loginTimeoutEnv, bookEnv] =
    (some 1,
      [OrchEvent.acquire 0, OrchEvent.loginCall 0, OrchEvent.closeContext 0,
       OrchEvent.closeBrowser 0, OrchEvent.sleepRetry 60,
       OrchEvent.acquire 1, OrchEvent.loginCall 1, OrchEvent.navigateCall 1,
       OrchEvent.sweepCall 1, OrchEvent.closeContext 1, OrchEvent.closeBrowser 1,
       OrchEvent.sleepRetry 60]) := by decide

/-! ### Trace lemmas for the orchestrator -/

/-- Every tagged event produced by cycle `s` carries tag `s`. -/
theorem runCycle_tag (s : Nat) (env : CycleEnv) (e : OrchEvent) (t : Nat)
    (he : e ∈ (runCycle s env).2) (ht : e.sid = some t) : t = s := by
  unfold runCycle runCycleBody at he
  rcases hl : env.loginResult with err | u
  · rw [hl] at he
    simp at he
    rcases he with h | h | h | h | h <;> subst h <;>
      simp [OrchEvent.sid] at ht <;> omega
  · rw [hl] at he
    rcases hn : navigate_to_appointment env.navPage with msg | url
    · rw [hn] at he
      simp at he
      rcases he with h | h | h | h | h | h <;> subst h <;>
        simp [OrchEvent.sid] at ht <;> omega
    · rw [hn] at he
      simp at he
      rcases he with h | h | h | h | h | h | h <;> subst h <;>
        simp [OrchEvent.sid] at ht <;> omega

/-- Tagged events of the loop started at cycle `s` have tags `≥ s`. -/
theorem runCycles_tag_ge (envs : List CycleEnv) (s : Nat) (e : OrchEvent) (t : Nat)
    (he : e ∈ (runCycles s envs).2) (ht : e.sid = some t) : s ≤ t := by
  induction envs generalizing s with
  | nil => simp [runCycles] at he
  | cons env rest ih =>
    unfold runCycles at he
    rcases hc : runCycle s env with ⟨booked, tr⟩
    rw [hc] at he
    cases booked with
    | true =>
      simp at he
      have := runCycle_tag s env e t (by rw [hc]; exact he) ht
      omega
    | false =>
      rcases hr : runCycles (s + 1) rest with ⟨res, tr2⟩
      rw [hr] at he
      simp at he
      rcases he with h | h
      · have := runCycle_tag s env e t (by rw [hc]; exact h) ht
        omega
      · have := ih (s + 1) (by rw [hr]; exact h)
        omega

/-- Cycle `s`'s own trace closes the context once, closes the browser
    once, contains its acquisition, and sleeps exactly once. -/
theorem runCycle_counts (s : Nat) (env : CycleEnv) :
    (runCycle s env).2.count (OrchEvent.closeContext s) = 1 ∧
    (runCycle s env).2.count (OrchEvent.closeBrowser s) = 1 ∧
    OrchEvent.acquire s ∈ (runCycle s env).2 ∧
    (runCycle s env).2.count (OrchEvent.sleepRetry RETRY_INTERVAL) = 1 := by
  unfold runCycle runCycleBody
  rcases env.loginResult with err | u
  · simp [List.count_append, List.count_cons]
  · rcases navigate_to_appointment env.navPage with msg | url <;>
      simp [List.count_append, List.count_cons]

/-- Events tagged with a different cycle do not appear in cycle `s`'s
    trace. -/
theorem runCycle_not_mem (s sid : Nat) (env : CycleEnv) (e : OrchEvent)
    (hside : e.sid = some sid) (hne : sid ≠ s) : e ∉ (runCycle s env).2 :=
  fun hm => hne (runCycle_tag s env e sid hm hside)

/-- Events tagged below the starting cycle number do not appear in the
    loop's trace. -/
theorem runCycles_not_mem (envs : List CycleEnv) (s sid : Nat) (e : OrchEvent)
    (hside : e.sid = some sid) (hlt : sid < s) : e ∉ (runCycles s envs).2 :=
  fun hm => absurd (runCycles_tag_ge envs s e sid hm hside) (by omega)
/-- Unfolding the loop at a booking cycle: the run stops with that
    cycle's number and trace. -/
theorem runCycles_cons_booked (s : Nat) (env : CycleEnv) (rest : List CycleEnv)
    (h : (runCycle s env).1 = true) :
    runCycles s (env :: rest) = (some s, (runCycle s env).2) := by
  rcases hc : runCycle s env with ⟨b, tr⟩
  rw [hc] at h
  simp only at h
  subst h
  unfold runCycles
  rw [hc]
  simp

/-- Unfolding the loop at a non-booking cycle: the cycle's trace is
    followed by the loop over the remaining cycles. -/
theorem runCycles_cons_retry (s : Nat) (env : CycleEnv) (rest : List CycleEnv)
    (h : (runCycle s env).1 = false) :
    runCycles s (env :: rest) =
      ((runCycles (s + 1) rest).1,
        (runCycle s env).2 ++ (runCycles (s + 1) rest).2) := by
  rcases hr : runCycles (s + 1) rest with ⟨res, tr2⟩
  rcases hc : runCycle s env with ⟨b, tr⟩
  rw [hc] at h
  simp only at h
  subst h
  unfold runCycles
  rw [hc, hr]
  simp

/-- Release invariant over the loop started at cycle `s`: an acquired
    session is closed (context and browser) exactly once, and that close
    happens before the next cycle's acquisition. -/
theorem runCycles_release (envs : List CycleEnv) (s sid : Nat)
    (hacq : OrchEvent.acquire sid ∈ (runCycles s envs).2) :
    (runCycles s envs).2.count (OrchEvent.closeContext sid) = 1 ∧
    (runCycles s envs).2.count (OrchEvent.closeBrowser sid) = 1 ∧
    (OrchEvent.acquire (sid + 1) ∈ (runCycles s envs).2 →
      ∃ tr1 tr2, (runCycles s envs).2 = tr1 ++ tr2 ∧
        tr1.count (OrchEvent.closeContext sid) = 1 ∧
        tr1.count (OrchEvent.closeBrowser sid) = 1 ∧
        OrchEvent.acquire (sid + 1) ∈ tr2) := by
  revert hacq
  induction envs generalizing s with
  | nil =>
    intro hacq
    simp [runCycles] at hacq
  | cons env rest ih =>
    intro hacq
    cases hb : (runCycle s env).1 with
    | true =>
      rw [runCycles_cons_booked s env rest hb] at hacq ⊢
      have hsid : sid = s :=
        runCycle_tag s env (OrchEvent.acquire sid) sid hacq rfl
      subst hsid
      refine ⟨(runCycle_counts sid env).1, (runCycle_counts sid env).2.1, ?_⟩
      intro h
      have : sid + 1 = sid :=
        runCycle_tag sid env (OrchEvent.acquire (sid + 1)) (sid + 1) h rfl
      omega
    | false =>
      rw [runCycles_cons_retry s env rest hb] at hacq ⊢
      simp only [List.mem_append] at hacq
      by_cases hs : sid = s
      · subst hs
        have hnc : OrchEvent.closeContext sid ∉ (runCycles (sid + 1) rest).2 :=
          runCycles_not_mem rest (sid + 1) sid _ rfl (by omega)
        have hnb : OrchEvent.closeBrowser sid ∉ (runCycles (sid + 1) rest).2 :=
          runCycles_not_mem rest (sid + 1) sid _ rfl (by omega)
        refine ⟨?_, ?_, ?_⟩
        · rw [List.count_append, (runCycle_counts sid env).1,
            List.count_eq_zero.mpr hnc]
        · rw [List.count_append, (runCycle_counts sid env).2.1,
            List.count_eq_zero.mpr hnb]
        · intro h
          simp only [List.mem_append] at h
          refine ⟨(runCycle sid env).2, (runCycles (sid + 1) rest).2, rfl,
            (runCycle_counts sid env).1, (runCycle_counts sid env).2.1, ?_⟩
          rcases h with h | h
          · exact absurd (runCycle_tag sid env (OrchEvent.acquire (sid + 1))
              (sid + 1) h rfl) (by omega)
          · exact h
      · have hacq2 : OrchEvent.acquire sid ∈ (runCycles (s + 1) rest).2 := by
          rcases hacq with h | h
          · exact absurd (runCycle_tag s env (OrchEvent.acquire sid) sid h rfl) hs
          · exact h
        have hge : s + 1 ≤ sid :=
          runCycles_tag_ge rest (s + 1) (OrchEvent.acquire sid) sid hacq2 rfl
        obtain ⟨ihc, ihb, ihsplit⟩ := ih (s + 1) hacq2
        have hnc : OrchEvent.closeContext sid ∉ (runCycle s env).2 :=
          runCycle_not_mem s sid env _ rfl hs
        have hnb : OrchEvent.closeBrowser sid ∉ (runCycle s env).2 :=
          runCycle_not_mem s sid env _ rfl hs
        refine ⟨?_, ?_, ?_⟩
        · rw [List.count_append, List.count_eq_zero.mpr hnc, ihc]
        · rw [List.count_append, List.count_eq_zero.mpr hnb, ihb]
        · intro h
          simp only [List.mem_append] at h
          have h3 : OrchEvent.acquire (sid + 1) ∈ (runCycles (s + 1) rest).2 := by
            rcases h with h | h
            · exact absurd (runCycle_tag s env (OrchEvent.acquire (sid + 1))
                (sid + 1) h rfl) (by omega)
            · exact h
          obtain ⟨u1, u2, hsplit, hc1, hc2, hmem⟩ := ihsplit h3
          refine ⟨(runCycle s env).2 ++ u1, u2, ?_, ?_, ?_, hmem⟩
          · rw [hsplit, List.append_assoc]
          · rw [List.count_append, List.count_eq_zero.mpr hnc, hc1]
          · rw [List.count_append, List.count_eq_zero.mpr hnb, hc2]

/-- C1: for every run and every cycle whose session was acquired, the
    trace closes that cycle's context exactly once and its browser exactly
    once, and when a next cycle acquires a session the closes of the
    previous cycle's session happen strictly before that acquisition
    (release is modelled as total, matching the driver's idempotent,
    non-failing close of an already-released session). -/
theorem session_released_exactly_once (envs : List CycleEnv) (sid : Nat)
    (hacq : OrchEvent.acquire sid ∈ (login_and_schedule envs).2) :
    (login_and_schedule envs).2.count (OrchEvent.closeContext sid) = 1 ∧
    (login_and_schedule envs).2.count (OrchEvent.closeBrowser sid) = 1 ∧
    (OrchEvent.acquire (sid + 1) ∈ (login_and_schedule envs).2 →
      ∃ tr1 tr2, (login_and_schedule envs).2 = tr1 ++ tr2 ∧
        tr1.count (OrchEvent.closeContext sid) = 1 ∧
        tr1.count (OrchEvent.closeBrowser sid) = 1 ∧
        OrchEvent.acquire (sid + 1) ∈ tr2) :=
  runCycles_release envs 0 sid hacq

/-- Witness for C1: a timed-out first cycle followed by a booking cycle. -/
theorem session_released_exactly_once_witness :
    (login_and_schedule [loginTimeoutEnv, bookEnv]).2.count
        (OrchEvent.closeContext 0) = 1 ∧
    (login_and_schedule [loginTimeoutEnv, bookEnv]).2.count
        (OrchEvent.closeBrowser 0) = 1 ∧
    (OrchEvent.acquire 1 ∈ (login_and_schedule [loginTimeoutEnv, bookEnv]).2 →
      ∃ tr1 tr2, (login_and_schedule [loginTimeoutEnv, bookEnv]).2 = tr1 ++ tr2 ∧
        tr1.count (OrchEvent.closeContext 0) = 1 ∧
        tr1.count (OrchEvent.closeBrowser 0) = 1 ∧
        OrchEvent.acquire 1 ∈ tr2) :=
  session_released_exactly_once [loginTimeoutEnv, bookEnv] 0 (by decide)

/-- A cycle's boolean outcome is determined by its environment alone. -/
theorem runCycle_books (s : Nat) (env : CycleEnv) :
    (runCycle s env).1 = cycleBooks env := by
  unfold runCycle runCycleBody cycleBooks
  rcases env.loginResult with err | u
  · simp
  · rcases navigate_to_appointment env.navPage with msg | url <;> simp

/-- The booking cycle's number is at least the starting number. -/
theorem runCycles_books_ge (envs : List CycleEnv) (s k : Nat)
    (h : (runCycles s envs).1 = some k) : s ≤ k := by
  revert h
  induction envs generalizing s with
  | nil =>
    intro h
    simp [runCycles] at h
  | cons env rest ih =>
    intro h
    cases hb : (runCycle s env).1 with
    | true =>
      rw [runCycles_cons_booked s env rest hb] at h
      simp only [Option.some.injEq] at h
      omega
    | false =>
      rw [runCycles_cons_retry s env rest hb] at h
      have := ih (s + 1) h
      omega

/-- Every tagged event of a run that books at cycle `k` belongs to a
    cycle `≤ k`: nothing runs after the booking cycle. -/
theorem runCycles_result_tag (envs : List CycleEnv) (s k : Nat)
    (h : (runCycles s envs).1 = some k) (e : OrchEvent)
    (he : e ∈ (runCycles s envs).2) (t : Nat) (ht : e.sid = some t) :
    t ≤ k := by
  revert h he
  induction envs generalizing s with
  | nil =>
    intro h he
    simp [runCycles] at h
  | cons env rest ih =>
    intro h he
    cases hb : (runCycle s env).1 with
    | true =>
      rw [runCycles_cons_booked s env rest hb] at h he
      simp only [Option.some.injEq] at h
      have := runCycle_tag s env e t he ht
      omega
    | false =>
      rw [runCycles_cons_retry s env rest hb] at h he
      have hge : s + 1 ≤ k := runCycles_books_ge rest (s + 1) k h
      simp only [List.mem_append] at he
      rcases he with h2 | h2
      · have := runCycle_tag s env e t h2 ht
        omega
      · exact ih (s + 1) h h2

/-- Splitting a run whose leading cycles all fail: their traces happen
    first, and the run continues past them with the cycle counter
    advanced. -/
theorem runCycles_all_fail (pre rest' : List CycleEnv) (s : Nat)
    (hfail : ∀ p ∈ pre, cycleBooks p = false) :
    runCycles s (pre ++ rest') =
      ((runCycles (s + pre.length) rest').1,
        (runCycles s pre).2 ++ (runCycles (s + pre.length) rest').2) := by
  induction pre generalizing s with
  | nil => simp [runCycles]
  | cons env pre' ih =>
    have hb : (runCycle s env).1 = false := by
      rw [runCycle_books]
      exact hfail env (List.mem_cons_self _ _)
    rw [List.cons_append, runCycles_cons_retry s env (pre' ++ rest') hb,
      ih (s + 1) (fun p hp => hfail p (List.mem_cons_of_mem _ hp)),
      runCycles_cons_retry s env pre' hb]
    have hlen : s + (env :: pre').length = s + 1 + pre'.length := by
      simp [List.length_cons]
      omega
    rw [hlen, List.append_assoc]

/-- A run of cycles that all fail books nothing. -/
theorem runCycles_all_fail_none (pre : List CycleEnv) (s : Nat)
    (hfail : ∀ p ∈ pre, cycleBooks p = false) :
    (runCycles s pre).1 = none := by
  have h := runCycles_all_fail pre [] s hfail
  rw [List.append_nil] at h
  rw [h]
  simp [runCycles]

/-- Every sleep a cycle performs is the fixed retry interval. -/
theorem runCycle_sleep_fixed (s : Nat) (env : CycleEnv) (n : Nat)
    (h : OrchEvent.sleepRetry n ∈ (runCycle s env).2) : n = RETRY_INTERVAL := by
  unfold runCycle runCycleBody at h
  rcases hl : env.loginResult with err | u
  · rw [hl] at h
    simp at h
    exact h
  · rw [hl] at h
    rcases hn : navigate_to_appointment env.navPage with msg | url <;>
      rw [hn] at h <;> simp at h <;> exact h

/-- Every sleep in a whole run is the fixed retry interval: there is no
    backoff escalation. -/
theorem runCycles_sleep_fixed (envs : List CycleEnv) (s n : Nat)
    (h : OrchEvent.sleepRetry n ∈ (runCycles s envs).2) : n = RETRY_INTERVAL := by
  revert h
  induction envs generalizing s with
  | nil =>
    intro h
    simp [runCycles] at h
  | cons env rest ih =>
    intro h
    cases hb : (runCycle s env).1 with
    | true =>
      rw [runCycles_cons_booked s env rest hb] at h
      exact runCycle_sleep_fixed s env n h
    | false =>
      rw [runCycles_cons_retry s env rest hb] at h
      simp only [List.mem_append] at h
      rcases h with h | h
      · exact runCycle_sleep_fixed s env n h
      · exact ih (s + 1) h

/-- A run of `N` failed cycles sleeps exactly `N` times: once per cycle. -/
theorem runCycles_all_fail_sleep_count (pre : List CycleEnv) (s : Nat)
    (hfail : ∀ p ∈ pre, cycleBooks p = false) :
    (runCycles s pre).2.count (OrchEvent.sleepRetry RETRY_INTERVAL)
      = pre.length := by
  induction pre generalizing s with
  | nil => simp [runCycles]
  | cons env pre' ih =>
    have hb : (runCycle s env).1 = false := by
      rw [runCycle_books]
      exact hfail env (List.mem_cons_self _ _)
    rw [runCycles_cons_retry s env pre' hb]
    show ((runCycle s env).2 ++ (runCycles (s + 1) pre').2).count _ = _
    rw [List.count_append, (runCycle_counts s env).2.2.2,
      ih (s + 1) (fun p hp => hfail p (List.mem_cons_of_mem _ hp))]
    simp [List.length_cons]
    omega

/-- Every cycle the loop reaches starts by acquiring a session. -/
theorem runCycles_cons_acquire (s : Nat) (env : CycleEnv)
    (rest : List CycleEnv) :
    OrchEvent.acquire s ∈ (runCycles s (env :: rest)).2 := by
  cases hb : (runCycle s env).1 with
  | true =>
    rw [runCycles_cons_booked s env rest hb]
    exact (runCycle_counts s env).2.2.1
  | false =>
    rw [runCycles_cons_retry s env rest hb]
    exact List.mem_append_left _ (runCycle_counts s env).2.2.1

/-! ### Remaining claims about the orchestrator -/

/-- C2: once the sweep books, the orchestrator exits the loop: when the
    leading cycles all fail and the next cycle books, the run ends at that
    cycle, and the trace contains no acquisition, login call, navigation
    call, or sweep call belonging to any later cycle. -/
theorem booked_is_terminal (pre : List CycleEnv) (env : CycleEnv)
    (rest : List CycleEnv)
    (hfail : ∀ p ∈ pre, cycleBooks p = false)
    (hbook : cycleBooks env = true) :
    (login_and_schedule (pre ++ env :: rest)).1 = some pre.length ∧
    ∀ sid, pre.length < sid →
      OrchEvent.acquire sid ∉ (login_and_schedule (pre ++ env :: rest)).2 ∧
      OrchEvent.loginCall sid ∉ (login_and_schedule (pre ++ env :: rest)).2 ∧
      OrchEvent.navigateCall sid ∉ (login_and_schedule (pre ++ env :: rest)).2 ∧
      OrchEvent.sweepCall sid ∉ (login_and_schedule (pre ++ env :: rest)).2 := by
  have hb : (runCycle (0 + pre.length) env).1 = true := by
    rw [runCycle_books]
    exact hbook
  have hres : (login_and_schedule (pre ++ env :: rest)).1 = some pre.length := by
    unfold login_and_schedule
    rw [runCycles_all_fail pre (env :: rest) 0 hfail]
    show (runCycles (0 + pre.length) (env :: rest)).1 = _
    rw [runCycles_cons_booked (0 + pre.length) env rest hb]
    simp
  refine ⟨hres, ?_⟩
  intro sid hlt
  have key : ∀ e ∈ (login_and_schedule (pre ++ env :: rest)).2,
      ∀ t, e.sid = some t → t ≤ pre.length :=
    fun e he t ht =>
      runCycles_result_tag (pre ++ env :: rest) 0 pre.length hres e he t ht
  exact ⟨fun hm => absurd (key _ hm sid rfl) (by omega),
    fun hm => absurd (key _ hm sid rfl) (by omega),
    fun hm => absurd (key _ hm sid rfl) (by omega),
    fun hm => absurd (key _ hm sid rfl) (by omega)⟩

/-- Witness for C2: one failed cycle, one booking cycle, one cycle that
    would follow; the run stops at cycle 1 and shows no cycle-2 events. -/
theorem booked_is_terminal_witness :
    (login_and_schedule ([loginTimeoutEnv] ++ bookEnv :: [navFailEnv])).1
        = some 1 ∧
    (OrchEvent.acquire 2
        ∉ (login_and_schedule ([loginTimeoutEnv] ++ bookEnv :: [navFailEnv])).2 ∧
      OrchEvent.loginCall 2
        ∉ (login_and_schedule ([loginTimeoutEnv] ++ bookEnv :: [navFailEnv])).2 ∧
      OrchEvent.navigateCall 2
        ∉ (login_and_schedule ([loginTimeoutEnv] ++ bookEnv :: [navFailEnv])).2 ∧
      OrchEvent.sweepCall 2
        ∉ (login_and_schedule ([loginTimeoutEnv] ++ bookEnv :: [navFailEnv])).2) :=
  have h := booked_is_terminal [loginTimeoutEnv] bookEnv [navFailEnv]
    (by decide) (by decide)
  ⟨h.1, h.2 2 (by decide)⟩

/-- C7: when the continue link is absent or its href does not match the
    `/schedule/<digits>/continue_actions` pattern, the navigation step
    raises, and the orchestrator releases the session (context then
    browser), sleeps the fixed retry delay, and restarts from the
    beginning: the run continues as the loop over the remaining cycles,
    the next of which begins by acquiring a fresh session. -/
theorem nav_failure_restarts_cycle (env env2 : CycleEnv)
    (rest : List CycleEnv) (href : String)
    (hlogin : env.loginResult = Except.ok ())
    (hnav : env.navPage.continueHref = none ∨
      (env.navPage.continueHref = some href ∧ searchSchedule href.data = none)) :
    (∃ msg, navigate_to_appointment env.navPage = Except.error msg) ∧
    login_and_schedule (env :: env2 :: rest) =
      ((runCycles 1 (env2 :: rest)).1,
        [OrchEvent.acquire 0, OrchEvent.loginCall 0, OrchEvent.navigateCall 0,
         OrchEvent.closeContext 0, OrchEvent.closeBrowser 0,
         OrchEvent.sleepRetry RETRY_INTERVAL] ++ (runCycles 1 (env2 :: rest)).2) ∧
    OrchEvent.acquire 1 ∈ (login_and_schedule (env :: env2 :: rest)).2 := by
  have hmsg : ∃ msg, navigate_to_appointment env.navPage = Except.error msg := by
    rcases hnav with h | ⟨h1, h2⟩
    · exact ⟨"continue link absent", by simp [navigate_to_appointment, h]⟩
    · exact ⟨"regex match failure on continue link href", by
        simp [navigate_to_appointment, h1, h2]⟩
  obtain ⟨msg, hmsgeq⟩ := hmsg
  have hbody : runCycleBody 0 env =
      (false, [OrchEvent.acquire 0, OrchEvent.loginCall 0,
               OrchEvent.navigateCall 0]) := by
    unfold runCycleBody
    rw [hlogin, hmsgeq]
  have hcyc : runCycle 0 env =
      (false, [OrchEvent.acquire 0, OrchEvent.loginCall 0,
               OrchEvent.navigateCall 0, OrchEvent.closeContext 0,
               OrchEvent.closeBrowser 0,
               OrchEvent.sleepRetry RETRY_INTERVAL]) := by
    unfold runCycle
    rw [hbody]
    rfl
  have hfalse : (runCycle 0 env).1 = false := by rw [hcyc]
  refine ⟨⟨msg, hmsgeq⟩, ?_, ?_⟩
  · unfold login_and_schedule
    rw [runCycles_cons_retry 0 env (env2 :: rest) hfalse, hcyc]
  · unfold login_and_schedule
    rw [runCycles_cons_retry 0 env (env2 :: rest) hfalse]
    exact List.mem_append_right _ (runCycles_cons_acquire 1 env2 rest)

/-- Witness for C7: a cycle whose continue-link href has no schedule
    segment, followed by a booking cycle. -/
theorem nav_failure_restarts_cycle_witness :
    (∃ msg, navigate_to_appointment navFailEnv.navPage = Except.error msg) ∧
    login_and_schedule (navFailEnv :: bookEnv :: []) =
      ((runCycles 1 (bookEnv :: [])).1,
        [OrchEvent.acquire 0, OrchEvent.loginCall 0, OrchEvent.navigateCall 0,
         OrchEvent.closeContext 0, OrchEvent.closeBrowser 0,
         OrchEvent.sleepRetry RETRY_INTERVAL] ++ (runCycles 1 (bookEnv :: [])).2) ∧
    OrchEvent.acquire 1 ∈ (login_and_schedule (navFailEnv :: bookEnv :: [])).2 :=
  nav_failure_restarts_cycle navFailEnv bookEnv []
    "https://ais.usvisa-info.com/en-ca/niv/groups/40000000"
    rfl (Or.inr ⟨rfl, by decide⟩)

/-- C9: retry is unbounded with one fixed delay: after any number `N` of
    consecutive failed cycles the orchestrator starts cycle `N + 1`
    (acquiring session `N`; cycles are numbered from 0) without
    intervention; a run of failed cycles alone books nothing (no attempt
    cap); every sleep any run ever performs is the fixed `RETRY_INTERVAL`
    (no backoff escalation); and `N` failed cycles sleep exactly `N`
    times, once per cycle. -/
theorem unbounded_retry_fixed_delay (pre : List CycleEnv) (env : CycleEnv)
    (rest : List CycleEnv)
    (hfail : ∀ p ∈ pre, cycleBooks p = false) :
    OrchEvent.acquire pre.length
        ∈ (login_and_schedule (pre ++ env :: rest)).2 ∧
    (login_and_schedule pre).1 = none ∧
    (∀ envs' n, OrchEvent.sleepRetry n ∈ (login_and_schedule envs').2 →
      n = RETRY_INTERVAL) ∧
    (login_and_schedule pre).2.count (OrchEvent.sleepRetry RETRY_INTERVAL)
      = pre.length := by
  refine ⟨?_, ?_, ?_, ?_⟩
  · unfold login_and_schedule
    rw [runCycles_all_fail pre (env :: rest) 0 hfail]
    have h0 : 0 + pre.length = pre.length := by omega
    rw [h0]
    exact List.mem_append_right _ (runCycles_cons_acquire pre.length env rest)
  · exact runCycles_all_fail_none pre 0 hfail
  · intro envs' n hm
    exact runCycles_sleep_fixed envs' 0 n hm
  · exact runCycles_all_fail_sleep_count pre 0 hfail

/-- Witness for C9: two failed cycles (a login timeout, then a navigation
    failure) followed by a booking cycle. -/
theorem unbounded_retry_fixed_delay_witness :
    OrchEvent.acquire 2
        ∈ (login_and_schedule ([loginTimeoutEnv, navFailEnv] ++ bookEnv :: [])).2 ∧
    (login_and_schedule [loginTimeoutEnv, navFailEnv]).1 = none ∧
    (∀ envs' n, OrchEvent.sleepRetry n ∈ (login_and_schedule envs').2 →
      n = RETRY_INTERVAL) ∧
    (login_and_schedule [loginTimeoutEnv, navFailEnv]).2.count
        (OrchEvent.sleepRetry RETRY_INTERVAL) = 2 :=
  unbounded_retry_fixed_delay [loginTimeoutEnv, navFailEnv] bookEnv [] (by decide)

/-- C10: the booking cycle still runs its full teardown before the
    process stops: the trace of a run that ends in a booking ends with the
    booking cycle's context close, browser close, and a full
    `RETRY_INTERVAL` sleep, even though no further cycle runs. -/
theorem success_still_closes_and_sleeps (envs : List CycleEnv) (k : Nat)
    (h : (login_and_schedule envs).1 = some k) :
    ∃ tr0, (login_and_schedule envs).2 =
      tr0 ++ [OrchEvent.closeContext k, OrchEvent.closeBrowser k,
              OrchEvent.sleepRetry RETRY_INTERVAL] := by
  unfold login_and_schedule at h ⊢
  revert h
  generalize hs : 0 = s
  clear hs
  induction envs generalizing s with
  | nil =>
    intro h
    simp [runCycles] at h
  | cons env rest ih =>
    intro h
    cases hb : (runCycle s env).1 with
    | true =>
      rw [runCycles_cons_booked s env rest hb] at h ⊢
      simp only [Option.some.injEq] at h
      subst h
      exact ⟨(runCycleBody s env).2, rfl⟩
    | false =>
      rw [runCycles_cons_retry s env rest hb] at h ⊢
      obtain ⟨tr0, htr⟩ := ih (s + 1) h
      refine ⟨(runCycle s env).2 ++ tr0, ?_⟩
      show (runCycle s env).2 ++ (runCycles (s + 1) rest).2 = _
      rw [htr, List.append_assoc]

/-- Witness for C10: a single booking cycle; its trace still ends with
    the closes and the fixed sleep. -/
theorem success_still_closes_and_sleeps_witness :
    ∃ tr0, (login_and_schedule [bookEnv]).2 =
      tr0 ++ [OrchEvent.closeContext 0, OrchEvent.closeBrowser 0,
              OrchEvent.sleepRetry RETRY_INTERVAL] :=
  success_still_closes_and_sleeps [bookEnv] 0 (by decide)

end Usv
